import Mathlib

/-!
Verification of the Next-Unicorn analyzer core against its specification.

The pattern catalog and the Context7 verification client are embedded from
`src/analyzer/pattern-catalog.ts`.  The scanner orchestration and the
code-organization analyzer are not part of the provided sources (only their
tests are), so those components are modelled from the specification and
marked as such in their doc comments.
-/

namespace NextUnicorn

/-- Embedded JavaScript regular-expression literal from the catalog:
`source` is the regex source text exactly as written in the TypeScript file
(between the surrounding slashes) and `flags` is its flag string. -/
structure RegexLiteral where
  source : String
  flags : String
deriving DecidableEq

/-- Embeds the TypeScript interface `PatternDefinition`.  The TS `domain`
field has the string-enum type `VibeCodingDomain`; it is modelled by the
literal domain string.  `confidenceBase` is a decimal literal in TS,
modelled as a rational number. -/
structure PatternDefinition where
  id : String
  domain : String
  description : String
  filePatterns : List String
  codePatterns : List RegexLiteral
  confidenceBase : ℚ
deriving DecidableEq

/-- Embeds `getPatternCatalog` from `src/analyzer/pattern-catalog.ts`:
the full static pattern catalog, entry for entry in source order. -/
def getPatternCatalog : List PatternDefinition := [
  { id := "ux-manual-loading-states",
    domain := "empty-loading-error-states",
    description := "Hand-rolled loading state management without skeleton/spinner library",
    filePatterns := ["**/*.tsx", "**/*.jsx"],
    codePatterns := [
      { source := "isLoading\\s*\\?\\s*.*(?:Loading|Spinner|\\.\\.\\.)", flags := "i" },
      { source := "useState\\s*<\\s*boolean\\s*>\\s*\\(\\s*(?:true|false)\\s*\\).*loading", flags := "i" }
    ],
    confidenceBase := 55 / 100 },
  { id := "a11y-manual-click-handler-div",
    domain := "a11y-accessibility",
    description := "Clickable div/span without keyboard accessibility",
    filePatterns := ["**/*.tsx", "**/*.jsx"],
    codePatterns := [
      { source := "<div\\s[^>]*onClick\\s*=\\s*\\\x7b", flags := "" },
      { source := "<span\\s[^>]*onClick\\s*=\\s*\\\x7b", flags := "" }
    ],
    confidenceBase := 6 / 10 },
  { id := "a11y-manual-focus-management",
    domain := "a11y-accessibility",
    description := "Hand-rolled focus management and keyboard trap",
    filePatterns := ["**/*.tsx", "**/*.jsx", "**/*.ts", "**/*.js"],
    codePatterns := [
      { source := "\\.focus\\s*\\(\\s*\\)[\\s\\S]\x7b0,200\x7d(?:tabIndex|keyCode|keyDown)", flags := "i" },
      { source := "addEventListener\\s*\\(\\s*[\x27\"\x60]keydown[\x27\"\x60][\\s\\S]\x7b0,200\x7d(?:Tab|Escape|27|9)\\b", flags := "" },
      { source := "document\\s*\\.\\s*activeElement", flags := "" }
    ],
    confidenceBase := 55 / 100 },
  { id := "forms-manual-state-tracking",
    domain := "forms-ux",
    description := "Multiple useState hooks for individual form fields",
    filePatterns := ["**/*.tsx", "**/*.jsx"],
    codePatterns := [
      { source := "const\\s*\\[\\s*\\w+,\\s*set\\w+\\s*\\]\\s*=\\s*useState\\s*\\(\\s*[\x27\"\x60]\x7b2\x7d\\s*\\)[\\s\\S]\x7b0,200\x7donChange", flags := "" },
      { source := "e\\s*\\.\\s*target\\s*\\.\\s*value[\\s\\S]\x7b0,50\x7dset\\w+\\s*\\(\\s*e\\s*\\.\\s*target\\s*\\.\\s*value\\s*\\)", flags := "" }
    ],
    confidenceBase := 65 / 100 },
  { id := "forms-manual-submit-handler",
    domain := "forms-ux",
    description := "Hand-rolled form submission with manual preventDefault and state collection",
    filePatterns := ["**/*.tsx", "**/*.jsx"],
    codePatterns := [
      { source := "handleSubmit[\\s\\S]\x7b0,100\x7dpreventDefault\\s*\\(\\s*\\)[\\s\\S]\x7b0,200\x7dfetch\\s*\\(", flags := "" },
      { source := "onSubmit[\\s\\S]\x7b0,100\x7de\\s*\\.\\s*preventDefault[\\s\\S]\x7b0,200\x7d(?:setLoading|setError)", flags := "" }
    ],
    confidenceBase := 6 / 10 },
  { id := "validation-manual-form-errors",
    domain := "validation-feedback",
    description := "Hand-rolled form validation with manual error state tracking",
    filePatterns := ["**/*.tsx", "**/*.jsx", "**/*.ts", "**/*.js"],
    codePatterns := [
      { source := "setError\\s*\\(\\s*[\x27\"\x60]", flags := "" },
      { source := "errors\\s*\\[\\s*[\x27\"\x60]\\w+[\x27\"\x60]\\s*\\]", flags := "" },
      { source := "validate\\w*\\s*=\\s*\\(\\s*\\)\\s*=>", flags := "" }
    ],
    confidenceBase := 7 / 10 },
  { id := "notifications-manual-alert",
    domain := "notifications-inapp",
    description := "Using window.alert/confirm/prompt instead of a toast/notification library",
    filePatterns := ["**/*.ts", "**/*.tsx", "**/*.js", "**/*.jsx"],
    codePatterns := [
      { source := "window\\s*\\.\\s*alert\\s*\\(", flags := "" },
      { source := "window\\s*\\.\\s*confirm\\s*\\(", flags := "" },
      { source := "window\\s*\\.\\s*prompt\\s*\\(", flags := "" }
    ],
    confidenceBase := 75 / 100 },
  { id := "design-hardcoded-colors",
    domain := "design-system",
    description := "Hardcoded hex/rgb colors in JSX/TSX instead of CSS variables or design tokens",
    filePatterns := ["**/*.tsx", "**/*.jsx"],
    codePatterns := [
      { source := "(?:color|background|border|fill|stroke)\\s*[:=]\\s*[\x27\"\x60]#[0-9a-fA-F]\x7b3,8\x7d[\x27\"\x60]", flags := "" },
      { source := "(?:color|background|border)\\s*[:=]\\s*[\x27\"\x60]rgb\\(", flags := "" },
      { source := "className\\s*=.*(?:bg|text|border)-\\[#[0-9a-fA-F]\x7b3,8\x7d\\]", flags := "" }
    ],
    confidenceBase := 6 / 10 },
  { id := "design-inline-styles",
    domain := "design-system",
    description := "Inline style objects in JSX instead of utility classes or design tokens",
    filePatterns := ["**/*.tsx", "**/*.jsx"],
    codePatterns := [
      { source := "style\\s*=\\s*\\\x7b\\s*\\\x7b", flags := "" },
      { source := "style\\s*=\\s*\\\x7b[^\x7d]*(?:padding|margin|fontSize|color|width|height)\\s*:", flags := "" }
    ],
    confidenceBase := 55 / 100 },
  { id := "design-no-cn-utility",
    domain := "design-system",
    description := "String concatenation for className instead of cn()/clsx/cva utility",
    filePatterns := ["**/*.tsx", "**/*.jsx"],
    codePatterns := [
      { source := "className\\s*=\\s*\\\x7b[^\x7d]*\x60[^\x60]*\\$\\\x7b", flags := "" },
      { source := "className\\s*=\\s*\\\x7b[^\x7d]*\\+\\s*[\x27\"\x60]", flags := "" },
      { source := "className\\s*=\\s*\\\x7b.*\\?\\s*[\x27\"\x60][^\x27\"]*[\x27\"\x60]\\s*:\\s*[\x27\"\x60]", flags := "" }
    ],
    confidenceBase := 6 / 10 },
  { id := "seo-manual-meta-tags",
    domain := "seo",
    description := "Hand-rolled <meta> tag injection via DOM manipulation",
    filePatterns := ["**/*.ts", "**/*.tsx", "**/*.js", "**/*.jsx"],
    codePatterns := [
      { source := "document\\s*\\.\\s*createElement\\s*\\(\\s*[\x27\"\x60]meta[\x27\"\x60]\\s*\\)", flags := "" },
      { source := "document\\s*\\.\\s*head\\s*\\.\\s*appendChild", flags := "" },
      { source := "document\\s*\\.\\s*querySelector\\s*\\(\\s*[\x27\"\x60]meta\\[", flags := "" }
    ],
    confidenceBase := 75 / 100 },
  { id := "seo-manual-sitemap",
    domain := "seo",
    description := "Hand-rolled XML sitemap generation",
    filePatterns := ["**/*.ts", "**/*.js", "**/*.xml"],
    codePatterns := [
      { source := "<\\?xml\\s+version", flags := "" },
      { source := "<urlset\\s+xmlns", flags := "" },
      { source := "writeFileSync\\s*\\(.*sitemap", flags := "i" }
    ],
    confidenceBase := 8 / 10 },
  { id := "i18n-manual-pluralization",
    domain := "i18n",
    description := "Hand-rolled pluralization logic (if/else or ternary on count)",
    filePatterns := ["**/*.ts", "**/*.tsx", "**/*.js", "**/*.jsx"],
    codePatterns := [
      { source := "count\\s*[=!]==?\\s*1\\s*\\?\\s*[\x27\"\x60].*[\x27\"\x60]\\s*:\\s*[\x27\"\x60].*[\x27\"\x60]", flags := "" },
      { source := "\\.length\\s*[=!]==?\\s*1\\s*\\?\\s*[\x27\"\x60].*[\x27\"\x60]\\s*:\\s*[\x27\"\x60].*[\x27\"\x60]", flags := "" }
    ],
    confidenceBase := 7 / 10 },
  { id := "i18n-manual-locale-detection",
    domain := "i18n",
    description := "Manual navigator.language or Accept-Language header parsing",
    filePatterns := ["**/*.ts", "**/*.tsx", "**/*.js", "**/*.jsx"],
    codePatterns := [
      { source := "navigator\\s*\\.\\s*language", flags := "" },
      { source := "accept-language", flags := "i" },
      { source := "toLocaleDateString\\s*\\(", flags := "" }
    ],
    confidenceBase := 65 / 100 },
  { id := "content-manual-markdown-parsing",
    domain := "content-marketing",
    description := "Hand-rolled markdown parsing with regex or string manipulation",
    filePatterns := ["**/*.ts", "**/*.js", "**/*.tsx", "**/*.jsx"],
    codePatterns := [
      { source := "\\.replace\\s*\\(\\s*\\/\\s*#", flags := "" },
      { source := "\\.replace\\s*\\(\\s*\\/\\s*\\\\\\*\\\\\\*", flags := "" },
      { source := "\\.split\\s*\\(\\s*[\x27\"\x60]\\\\n[\x27\"\x60]\\s*\\)\\s*\\.\\s*map", flags := "" }
    ],
    confidenceBase := 65 / 100 },
  { id := "content-manual-mdx-processing",
    domain := "content-marketing",
    description := "Hand-rolled MDX/markdown file processing pipeline",
    filePatterns := ["**/*.ts", "**/*.js"],
    codePatterns := [
      { source := "readFileSync\\s*\\(.*\\.mdx?\\b", flags := "i" },
      { source := "glob\\s*\\(.*\\.mdx?\\b", flags := "i" },
      { source := "frontmatter|gray-matter", flags := "i" }
    ],
    confidenceBase := 6 / 10 },
  { id := "ab-test-manual-random-split",
    domain := "ab-testing-experimentation",
    description := "Hand-rolled A/B testing with Math.random() or cookie-based splits",
    filePatterns := ["**/*.ts", "**/*.tsx", "**/*.js", "**/*.jsx"],
    codePatterns := [
      { source := "Math\\s*\\.\\s*random\\s*\\(\\s*\\)\\s*[<>]=?\\s*0?\\.\\s*5", flags := "" },
      { source := "variant\\s*=\\s*[\x27\"\x60][AB][\x27\"\x60]", flags := "i" },
      { source := "experiment\\s*[=:]\\s*.*random", flags := "i" }
    ],
    confidenceBase := 7 / 10 },
  { id := "analytics-manual-tracking",
    domain := "analytics-tracking",
    description := "Hand-rolled analytics/tracking calls instead of a product analytics SDK",
    filePatterns := ["**/*.ts", "**/*.tsx", "**/*.js", "**/*.jsx"],
    codePatterns := [
      { source := "window\\s*\\.\\s*dataLayer\\s*\\.\\s*push\\s*\\(", flags := "" },
      { source := "gtag\\s*\\(\\s*[\x27\"\x60]event[\x27\"\x60]", flags := "" },
      { source := "fbq\\s*\\(\\s*[\x27\"\x60]track[\x27\"\x60]", flags := "" },
      { source := "navigator\\s*\\.\\s*sendBeacon\\s*\\(", flags := "" }
    ],
    confidenceBase := 7 / 10 },
  { id := "agent-manual-tool-dispatch",
    domain := "agent-architecture",
    description := "Hand-rolled tool dispatch with switch/case or if/else chains",
    filePatterns := ["**/*.ts", "**/*.js", "**/*.py"],
    codePatterns := [
      { source := "switch\\s*\\(\\s*tool(?:Name|_name|Id)\\s*\\)", flags := "i" },
      { source := "if\\s*\\(\\s*tool(?:Name|_name)\\s*===?\\s*[\x27\"\x60]", flags := "i" },
      { source := "tool_map\\s*\\[", flags := "i" }
    ],
    confidenceBase := 7 / 10 },
  { id := "agent-manual-context-window",
    domain := "agent-architecture",
    description := "Hand-rolled context window management (token counting, truncation)",
    filePatterns := ["**/*.ts", "**/*.js", "**/*.py"],
    codePatterns := [
      { source := "token[_s]?\\s*(?:count|length|limit)", flags := "i" },
      { source := "truncat(?:e|ion)\\s*.*(?:context|message|prompt)", flags := "i" },
      { source := "maxTokens?\\s*[=:]", flags := "i" }
    ],
    confidenceBase := 6 / 10 },
  { id := "state-manual-usestate-chain",
    domain := "state-management",
    description := "Multiple related useState hooks that should be a single store",
    filePatterns := ["**/*.tsx", "**/*.jsx"],
    codePatterns := [
      { source := "useState\\s*\\(.*\\);\\s*\\n\\s*const\\s*\\[.*\\]\\s*=\\s*useState\\s*\\(.*\\);\\s*\\n\\s*const\\s*\\[.*\\]\\s*=\\s*useState", flags := "" },
      { source := "const\\s*\\[\\w+,\\s*set\\w+\\]\\s*=\\s*useState[\\s\\S]\x7b0,100\x7dconst\\s*\\[\\w+,\\s*set\\w+\\]\\s*=\\s*useState[\\s\\S]\x7b0,100\x7dconst\\s*\\[\\w+,\\s*set\\w+\\]\\s*=\\s*useState", flags := "" }
    ],
    confidenceBase := 6 / 10 },
  { id := "state-manual-context-provider",
    domain := "state-management",
    description := "Hand-rolled React Context for global state management",
    filePatterns := ["**/*.tsx", "**/*.jsx", "**/*.ts", "**/*.js"],
    codePatterns := [
      { source := "createContext\\s*<[\\s\\S]*>\\s*\\(", flags := "" },
      { source := "useReducer\\s*\\(\\s*\\w+Reducer", flags := "" },
      { source := "Provider\\s+value\\s*=\\s*\\\x7b[\\s\\S]*dispatch", flags := "" }
    ],
    confidenceBase := 55 / 100 },
  { id := "state-manual-redux-boilerplate",
    domain := "state-management",
    description := "Redux boilerplate without Redux Toolkit (manual action creators, reducers)",
    filePatterns := ["**/*.ts", "**/*.js"],
    codePatterns := [
      { source := "type\\s*:\\s*[\x27\"\x60][A-Z_]+[\x27\"\x60]\\s*,\\s*payload", flags := "" },
      { source := "switch\\s*\\(\\s*action\\s*\\.\\s*type\\s*\\)", flags := "" },
      { source := "const\\s+\\w+\\s*=\\s*\\(\\s*state\\s*=\\s*initialState\\s*,\\s*action\\s*\\)", flags := "" }
    ],
    confidenceBase := 75 / 100 },
  { id := "data-fetch-useeffect",
    domain := "data-fetching-caching",
    description := "Manual data fetching with fetch/axios inside useEffect",
    filePatterns := ["**/*.tsx", "**/*.jsx"],
    codePatterns := [
      { source := "useEffect\\s*\\(\\s*\\(\\s*\\)\\s*=>\\s*\\\x7b[\\s\\S]\x7b0,200\x7dfetch\\s*\\(", flags := "" },
      { source := "useEffect\\s*\\(\\s*\\(\\s*\\)\\s*=>\\s*\\\x7b[\\s\\S]\x7b0,200\x7daxios\\s*\\.\\s*get", flags := "" },
      { source := "useEffect\\s*\\(\\s*\\(\\s*\\)\\s*=>\\s*\\\x7b[\\s\\S]\x7b0,100\x7dsetLoading\\s*\\(\\s*true\\s*\\)", flags := "" }
    ],
    confidenceBase := 7 / 10 },
  { id := "data-fetch-manual-cache",
    domain := "data-fetching-caching",
    description := "Hand-rolled client-side data cache with Map or object",
    filePatterns := ["**/*.ts", "**/*.tsx", "**/*.js", "**/*.jsx"],
    codePatterns := [
      { source := "new\\s+Map\\s*<.*,.*>\\s*\\(\\s*\\)[\\s\\S]\x7b0,200\x7d\\.set\\s*\\([\\s\\S]\x7b0,100\x7d\\.get\\s*\\(", flags := "" },
      { source := "cache\\s*\\[\\s*\\w+\\s*\\]\\s*=[\\s\\S]\x7b0,100\x7dcache\\s*\\[\\s*\\w+\\s*\\]", flags := "" },
      { source := "const\\s+cache\\s*=\\s*(?:new\\s+Map|\x7b\x7d)", flags := "" }
    ],
    confidenceBase := 6 / 10 },
  { id := "data-fetch-manual-retry",
    domain := "data-fetching-caching",
    description := "Hand-rolled fetch retry logic with loops or recursion",
    filePatterns := ["**/*.ts", "**/*.js"],
    codePatterns := [
      { source := "retry\\s*[<>=]\\s*\\d+[\\s\\S]\x7b0,200\x7dfetch\\s*\\(", flags := "i" },
      { source := "for\\s*\\(\\s*let\\s+\\w+\\s*=\\s*0[\\s\\S]\x7b0,200\x7dfetch\\s*\\(", flags := "" },
      { source := "attempts?\\s*[+\\-]=\\s*1[\\s\\S]\x7b0,100\x7d(?:fetch|axios)", flags := "i" }
    ],
    confidenceBase := 7 / 10 },
  { id := "error-manual-error-boundary",
    domain := "error-handling-resilience",
    description := "Hand-rolled error boundary class component",
    filePatterns := ["**/*.tsx", "**/*.jsx", "**/*.ts", "**/*.js"],
    codePatterns := [
      { source := "componentDidCatch\\s*\\(", flags := "" },
      { source := "getDerivedStateFromError\\s*\\(", flags := "" },
      { source := "class\\s+\\w*ErrorBoundary\\s+extends\\s+(?:React\\.)?Component", flags := "" }
    ],
    confidenceBase := 8 / 10 },
  { id := "error-manual-result-type",
    domain := "error-handling-resilience",
    description := "Hand-rolled Result/Either type for error handling",
    filePatterns := ["**/*.ts", "**/*.js"],
    codePatterns := [
      { source := "type\\s+Result\\s*<[\\s\\S]*>\\s*=\\s*\\\x7b?\\s*(?:success|ok|data|error)", flags := "i" },
      { source := "interface\\s+(?:Result|Either)\\s*<[\\s\\S]*>\\s*\\\x7b", flags := "i" },
      { source := "\\\x7b\\s*ok\\s*:\\s*true[\\s\\S]\x7b0,50\x7ddata\\s*:[\\s\\S]\x7b0,100\x7d\\\x7b\\s*ok\\s*:\\s*false[\\s\\S]\x7b0,50\x7derror\\s*:", flags := "" }
    ],
    confidenceBase := 65 / 100 },
  { id := "realtime-manual-websocket",
    domain := "realtime-collaboration",
    description := "Hand-rolled WebSocket connection management",
    filePatterns := ["**/*.ts", "**/*.tsx", "**/*.js", "**/*.jsx"],
    codePatterns := [
      { source := "new\\s+WebSocket\\s*\\(", flags := "" },
      { source := "\\.onmessage\\s*=\\s*", flags := "" },
      { source := "\\.send\\s*\\(\\s*JSON\\s*\\.\\s*stringify", flags := "" }
    ],
    confidenceBase := 65 / 100 },
  { id := "upload-manual-filereader",
    domain := "file-upload-media",
    description := "Hand-rolled file reading with FileReader API",
    filePatterns := ["**/*.ts", "**/*.tsx", "**/*.js", "**/*.jsx"],
    codePatterns := [
      { source := "new\\s+FileReader\\s*\\(\\s*\\)", flags := "" },
      { source := "readAsDataURL\\s*\\(", flags := "" },
      { source := "readAsArrayBuffer\\s*\\(", flags := "" }
    ],
    confidenceBase := 6 / 10 },
  { id := "upload-manual-drag-drop",
    domain := "file-upload-media",
    description := "Hand-rolled drag-and-drop file upload handling",
    filePatterns := ["**/*.tsx", "**/*.jsx", "**/*.ts", "**/*.js"],
    codePatterns := [
      { source := "addEventListener\\s*\\(\\s*[\x27\"\x60](?:dragover|dragenter|drop)[\x27\"\x60]", flags := "" },
      { source := "onDrop\\s*=\\s*\\\x7b[\\s\\S]\x7b0,200\x7ddataTransfer\\s*\\.\\s*files", flags := "" },
      { source := "e\\s*\\.\\s*dataTransfer\\s*\\.\\s*files", flags := "" }
    ],
    confidenceBase := 65 / 100 },
  { id := "db-manual-raw-sql",
    domain := "database-orm-migrations",
    description := "Hand-rolled raw SQL queries with string interpolation",
    filePatterns := ["**/*.ts", "**/*.js"],
    codePatterns := [
      { source := "\x60SELECT\\s[\\s\\S]*FROM\\s[\\s\\S]*\\$\\\x7b", flags := "i" },
      { source := "\x60INSERT\\s+INTO\\s[\\s\\S]*\\$\\\x7b", flags := "i" },
      { source := "\x60UPDATE\\s[\\s\\S]*SET\\s[\\s\\S]*\\$\\\x7b", flags := "i" },
      { source := "query\\s*\\(\\s*[\x27\"\x60](?:SELECT|INSERT|UPDATE|DELETE)\\b", flags := "i" }
    ],
    confidenceBase := 7 / 10 },
  { id := "db-manual-migration-script",
    domain := "database-orm-migrations",
    description := "Hand-rolled database migration with CREATE TABLE / ALTER TABLE",
    filePatterns := ["**/*.ts", "**/*.js", "**/*.sql"],
    codePatterns := [
      { source := "CREATE\\s+TABLE\\s+(?:IF\\s+NOT\\s+EXISTS\\s+)?\\w+", flags := "i" },
      { source := "ALTER\\s+TABLE\\s+\\w+\\s+(?:ADD|DROP|MODIFY)", flags := "i" },
      { source := "\\.exec\\s*\\(\\s*[\x27\"\x60](?:CREATE|ALTER|DROP)\\s", flags := "i" }
    ],
    confidenceBase := 65 / 100 },
  { id := "ratelimit-manual-counter",
    domain := "caching-rate-limit",
    description := "Hand-rolled rate limiting with in-memory counters or timestamps",
    filePatterns := ["**/*.ts", "**/*.js"],
    codePatterns := [
      { source := "requestCount\\s*[+]=\\s*1", flags := "i" },
      { source := "rateLimi(?:t|ter)", flags := "i" },
      { source := "new\\s+Map\\s*\\(\\s*\\).*(?:timestamp|count|window)", flags := "i" }
    ],
    confidenceBase := 65 / 100 },
  { id := "feature-flags-manual-env",
    domain := "feature-flags-config",
    description := "Hand-rolled feature flag checks via environment variables or config objects",
    filePatterns := ["**/*.ts", "**/*.tsx", "**/*.js", "**/*.jsx"],
    codePatterns := [
      { source := "process\\s*\\.\\s*env\\s*\\.\\s*FEATURE_", flags := "" },
      { source := "featureFlags?\\s*\\[", flags := "" },
      { source := "isFeatureEnabled\\s*\\(", flags := "" }
    ],
    confidenceBase := 6 / 10 },
  { id := "auth-manual-jwt-handling",
    domain := "auth-security",
    description := "Hand-rolled JWT token creation/verification",
    filePatterns := ["**/*.ts", "**/*.js", "**/*.py"],
    codePatterns := [
      { source := "atob\\s*\\(\\s*.*split\\s*\\(\\s*[\x27\"\x60]\\.[\x27\"\x60]\\s*\\)", flags := "" },
      { source := "Buffer\\s*\\.\\s*from\\s*\\(.*[\x27\"\x60]base64[\x27\"\x60]\\s*\\)", flags := "" },
      { source := "jwt\\s*\\.\\s*sign\\s*\\(", flags := "i" },
      { source := "createHmac\\s*\\(", flags := "" }
    ],
    confidenceBase := 75 / 100 },
  { id := "security-manual-headers",
    domain := "security-hardening",
    description := "Hand-rolled security headers instead of helmet/middleware",
    filePatterns := ["**/*.ts", "**/*.js"],
    codePatterns := [
      { source := "setHeader\\s*\\(\\s*[\x27\"\x60]X-Frame-Options[\x27\"\x60]", flags := "i" },
      { source := "setHeader\\s*\\(\\s*[\x27\"\x60]X-Content-Type-Options[\x27\"\x60]", flags := "i" },
      { source := "setHeader\\s*\\(\\s*[\x27\"\x60]Content-Security-Policy[\x27\"\x60]", flags := "i" }
    ],
    confidenceBase := 7 / 10 },
  { id := "observability-manual-logging",
    domain := "observability",
    description := "Hand-rolled logging with console.log/console.error in production code",
    filePatterns := ["**/*.ts", "**/*.js", "**/*.tsx", "**/*.jsx"],
    codePatterns := [
      { source := "console\\s*\\.\\s*(?:log|error|warn|info)\\s*\\(", flags := "" }
    ],
    confidenceBase := 55 / 100 },
  { id := "error-monitoring-manual-tracking",
    domain := "error-monitoring",
    description := "Hand-rolled error tracking with try/catch and HTTP reporting",
    filePatterns := ["**/*.ts", "**/*.js", "**/*.tsx", "**/*.jsx"],
    codePatterns := [
      { source := "catch\\s*\\(\\s*\\w+\\s*\\)\\s*\\\x7b[^\x7d]*fetch\\s*\\(", flags := "" },
      { source := "window\\s*\\.\\s*onerror", flags := "" },
      { source := "process\\s*\\.\\s*on\\s*\\(\\s*[\x27\"\x60]uncaughtException[\x27\"\x60]", flags := "" }
    ],
    confidenceBase := 7 / 10 },
  { id := "metrics-manual-timing",
    domain := "logging-tracing-metrics",
    description := "Hand-rolled performance timing with Date.now() or performance.now()",
    filePatterns := ["**/*.ts", "**/*.js", "**/*.tsx", "**/*.jsx"],
    codePatterns := [
      { source := "const\\s+\\w*[Ss]tart\\w*\\s*=\\s*(?:Date|performance)\\s*\\.\\s*now\\s*\\(\\s*\\)", flags := "" },
      { source := "(?:Date|performance)\\s*\\.\\s*now\\s*\\(\\s*\\)\\s*-\\s*\\w*[Ss]tart", flags := "" },
      { source := "console\\s*\\.\\s*time\\s*\\(", flags := "" }
    ],
    confidenceBase := 55 / 100 },
  { id := "metrics-manual-structured-log",
    domain := "logging-tracing-metrics",
    description := "Hand-rolled structured logging with JSON.stringify",
    filePatterns := ["**/*.ts", "**/*.js"],
    codePatterns := [
      { source := "console\\s*\\.\\s*(?:log|info)\\s*\\(\\s*JSON\\s*\\.\\s*stringify\\s*\\(", flags := "" },
      { source := "console\\s*\\.\\s*(?:log|info)\\s*\\(\\s*\\\x7b[\\s\\S]\x7b0,200\x7d(?:timestamp|level|message)", flags := "i" }
    ],
    confidenceBase := 7 / 10 },
  { id := "test-manual-assertions",
    domain := "testing-strategy",
    description := "Hand-rolled test assertions without a test framework",
    filePatterns := ["**/*.test.ts", "**/*.test.js", "**/*.spec.ts", "**/*.spec.js"],
    codePatterns := [
      { source := "if\\s*\\([\\s\\S]\x7b0,50\x7d!==[\\s\\S]\x7b0,50\x7d\\)\\s*throw\\s+new\\s+Error", flags := "" },
      { source := "assert\\s*\\.\\s*(?:equal|strictEqual|deepEqual)\\s*\\(", flags := "" },
      { source := "console\\s*\\.\\s*assert\\s*\\(", flags := "" }
    ],
    confidenceBase := 7 / 10 },
  { id := "test-manual-mocks",
    domain := "testing-strategy",
    description := "Hand-rolled mock/stub implementations",
    filePatterns := ["**/*.test.ts", "**/*.test.js", "**/*.spec.ts", "**/*.spec.js"],
    codePatterns := [
      { source := "const\\s+mock\\w+\\s*=\\s*\\(\\s*\\)\\s*=>\\s*(?:Promise\\s*\\.\\s*resolve|\x7b)", flags := "i" },
      { source := "jest\\s*\\.\\s*fn\\s*\\(\\s*\\)", flags := "" },
      { source := "sinon\\s*\\.\\s*stub\\s*\\(", flags := "" }
    ],
    confidenceBase := 5 / 10 },
  { id := "perf-unoptimized-images",
    domain := "performance-web-vitals",
    description := "Using raw <img> tags instead of optimized image components",
    filePatterns := ["**/*.tsx", "**/*.jsx"],
    codePatterns := [
      { source := "<img\\s[^>]*src\\s*=\\s*\\\x7b", flags := "" },
      { source := "<img\\s[^>]*src\\s*=\\s*[\x27\"\x60](?:https?:|\\/)", flags := "" }
    ],
    confidenceBase := 5 / 10 },
  { id := "ai-manual-prompt-template",
    domain := "ai-model-serving",
    description := "Hand-rolled prompt template string interpolation",
    filePatterns := ["**/*.ts", "**/*.tsx", "**/*.js", "**/*.jsx", "**/*.py"],
    codePatterns := [
      { source := "\x60[^\x60]*\\$\\\x7b.*\\\x7d[^\x60]*\x60\\s*.*(?:prompt|system|user|assistant)", flags := "i" },
      { source := "f[\x27\"].*\\\x7b.*\\\x7d.*[\x27\"].*(?:prompt|model|completion)", flags := "i" },
      { source := "\\.replace\\s*\\(\\s*[\x27\"\x60]\\\x7b.*\\\x7d[\x27\"\x60]", flags := "" }
    ],
    confidenceBase := 65 / 100 },
  { id := "ai-manual-inference-http",
    domain := "ai-model-serving",
    description := "Hand-rolled HTTP calls to model inference endpoints",
    filePatterns := ["**/*.ts", "**/*.js", "**/*.py"],
    codePatterns := [
      { source := "fetch\\s*\\(\\s*[\x27\"\x60].*(?:openai|anthropic|huggingface|inference)", flags := "i" },
      { source := "axios\\s*\\.\\s*post\\s*\\(\\s*[\x27\"\x60].*(?:completions|chat|generate)", flags := "i" },
      { source := "requests\\s*\\.\\s*post\\s*\\(\\s*[\x27\"\x60].*(?:v1\\/|api\\/)", flags := "i" }
    ],
    confidenceBase := 7 / 10 },
  { id := "payments-manual-integration",
    domain := "payments-billing",
    description := "Hand-rolled payment gateway HTTP integration",
    filePatterns := ["**/*.ts", "**/*.js", "**/*.py"],
    codePatterns := [
      { source := "fetch\\s*\\(\\s*[\x27\"\x60].*(?:stripe|paypal|checkout).*[\x27\"\x60]", flags := "i" },
      { source := "payment[_-]?intent", flags := "i" },
      { source := "charge\\s*\\.\\s*create", flags := "i" }
    ],
    confidenceBase := 75 / 100 },
  { id := "ecommerce-manual-tax-calculation",
    domain := "cross-border-ecommerce",
    description := "Hand-rolled tax/VAT calculation logic",
    filePatterns := ["**/*.ts", "**/*.js", "**/*.py"],
    codePatterns := [
      { source := "tax[_-]?rate\\s*[=:]\\s*0?\\.\\d+", flags := "i" },
      { source := "vat\\s*[=:*]", flags := "i" },
      { source := "calculateTax\\s*\\(", flags := "i" }
    ],
    confidenceBase := 65 / 100 }
]

/-- Embeds `getPatternsForDomain` from `src/analyzer/pattern-catalog.ts`:
returns the catalog entries whose `domain` equals the given domain. -/
def getPatternsForDomain (domain : String) : List PatternDefinition :=
  getPatternCatalog.filter (fun p => p.domain == domain)

/-- Scans a regex source text (as a character list) for an unbounded
"any characters" span in the sense of the specification: an unescaped `.`
immediately followed by `*`, or the two-character-class form `[\s\S]*`.
Escaped characters are skipped, so `\.\.\.` or `\.*` never counts.
Bounded windows such as `[\s\S]{0,200}` do not end in `*` and never match. -/
def hasUnboundedWildcardFrom : List Char → Bool
  | [] => false
  | '\\' :: _ :: rest => hasUnboundedWildcardFrom rest
  | '.' :: '*' :: _ => true
  | '[' :: '\\' :: 's' :: '\\' :: 'S' :: ']' :: '*' :: _ => true
  | _ :: rest => hasUnboundedWildcardFrom rest

/-- True when the regex literal contains an unbounded wildcard span. -/
def regexHasUnboundedWildcard (r : RegexLiteral) : Bool :=
  hasUnboundedWildcardFrom r.source.toList

/-- C1 counterexample: the claim "every regular expression in every catalog
entry uses bounded repetition for its any-characters spans" is false on the
code.  The entry `db-manual-raw-sql` (among others) contains the unbounded
span `[\s\S]*` in each of its SQL-template matchers, and the very first
catalog entry contains an unescaped unbounded `.*`. -/
theorem c1_unbounded_wildcard_exists :
    (∃ p ∈ getPatternCatalog, p.id = "db-manual-raw-sql" ∧
      ∃ r ∈ p.codePatterns, regexHasUnboundedWildcard r = true) ∧
    ¬ (∀ p ∈ getPatternCatalog, ∀ r ∈ p.codePatterns,
        regexHasUnboundedWildcard r = false) := by
  decide

/-- C1 (amended): not every catalog regex bounds its wildcard spans.
Exactly 18 of the 48 entries contain at least one unbounded
any-characters span (an unescaped `.*` or a bare `[\s\S]*`); the
remaining 30 entries contain none, and the multi-hundred-character
windows in them are written with explicit bounds such as `[\s\S]{0,200}`. -/
theorem c1_unbounded_wildcard_entries :
    ((getPatternCatalog.filter
        (fun p => p.codePatterns.any regexHasUnboundedWildcard)).map
          PatternDefinition.id) =
      ["ux-manual-loading-states",
      "design-hardcoded-colors",
      "design-no-cn-utility",
      "seo-manual-sitemap",
      "i18n-manual-pluralization",
      "content-manual-mdx-processing",
      "ab-test-manual-random-split",
      "agent-manual-context-window",
      "state-manual-usestate-chain",
      "state-manual-context-provider",
      "data-fetch-manual-cache",
      "error-manual-result-type",
      "db-manual-raw-sql",
      "ratelimit-manual-counter",
      "auth-manual-jwt-handling",
      "ai-manual-prompt-template",
      "ai-manual-inference-http",
      "payments-manual-integration"] ∧
    (getPatternCatalog.filter
        (fun p => p.codePatterns.any regexHasUnboundedWildcard)).length = 18 ∧
    getPatternCatalog.length = 48 := by
  decide

/-- C2: the catalog defines no pattern in the `code-organization` domain at
all — in particular no `org-deep-relative-import` pattern — although the
repository's own tests (`tests/code-organization.test.ts`) require exactly
three such patterns and require a file importing from
`../../../config/app` to be detected by `org-deep-relative-import`. -/
theorem c2_catalog_lacks_code_organization_patterns :
    getPatternCatalog.filter (fun p => p.domain == "code-organization") = [] ∧
    getPatternsForDomain "code-organization" = [] ∧
    getPatternCatalog.all (fun p => p.id != "org-deep-relative-import") = true := by
  decide

/-- C3: all 48 catalog ids are pairwise distinct and every entry's
`confidenceBase` lies in the closed interval [0, 1]. -/
theorem c3_ids_unique_confidence_in_range :
    (getPatternCatalog.map PatternDefinition.id).Nodup ∧
    getPatternCatalog.all
      (fun p => decide (0 ≤ p.confidenceBase) && decide (p.confidenceBase ≤ 1)) =
      true := by
  refine ⟨by decide, ?_⟩
  simp only [getPatternCatalog, List.all_cons, List.all_nil, Bool.and_eq_true,
    decide_eq_true_eq]
  norm_num

/-- C4: `getPatternsForDomain d` is exactly the subsequence of the (pure,
order-stable) catalog whose entries have domain `d`: it is the filter of
the catalog by domain, a sublist of the catalog, its members are precisely
the catalog members with that domain, and a domain with no patterns yields
the empty list. -/
theorem c4_domain_filter_contract :
    (∀ d : String, getPatternsForDomain d =
        getPatternCatalog.filter (fun p => p.domain == d)) ∧
    (∀ d : String, (getPatternsForDomain d).Sublist getPatternCatalog) ∧
    (∀ d : String, ∀ p : PatternDefinition,
        p ∈ getPatternsForDomain d ↔ p ∈ getPatternCatalog ∧ p.domain = d) ∧
    getPatternsForDomain "nonexistent-domain" = [] := by
  refine ⟨fun d => rfl, fun d => List.filter_sublist _, fun d p => ?_, by decide⟩
  simp [getPatternsForDomain, List.mem_filter]

/-! ## Code-organization analyzer (modelled from the spec)

The analyzer itself (`src/analyzer/code-organization-analyzer.ts`) is not
among the provided sources; only its tests are.  The definitions below are
modelled from the specification (sections 4.6, 4.7 and the data model in
section 3). -/

/-- Severity of a structural finding (spec section 3). -/
inductive Severity
  | warning
  | critical
deriving DecidableEq

/-- The finding kinds of the spec's `StructuralFinding.type` field. -/
inductive FindingType
  | godDirectory
  | mixedNamingConvention
  | deepNesting
  | barrelBloat
  | catchAllDirectory
  | circularDependency
  | hardcodedConfigValues
  | missingLayer
deriving DecidableEq

/-- Modelled from the spec: a structural observation about directory/file
organization or the import graph (spec section 3, `StructuralFinding`). -/
structure StructuralFinding where
  type : FindingType
  domain : String
  severity : Severity
  paths : List String
  description : String
deriving DecidableEq

/-- Modelled from the spec: one directory of the scanned tree, with its
path segments relative to the scan root and its immediate file names. -/
structure DirListing where
  path : List String
  files : List String
deriving DecidableEq

/-- Recognized source-file extensions (the tests count `.ts`, `.tsx` and
`.js` files and exclude `.json` and `.md`). -/
def sourceExtensions : List String := [".ts", ".tsx", ".js", ".jsx"]

/-- True when the file name carries a recognized source extension. -/
def isSourceFile (name : String) : Bool :=
  sourceExtensions.any (fun e => e.toList.isSuffixOf name.toList)

/-- Immediate (non-recursive) count of recognized source files. -/
def sourceFileCount (d : DirListing) : Nat :=
  (d.files.filter isSourceFile).length

/-- Path of a directory listing as a single forward-slash string. -/
def dirPathString (d : DirListing) : String :=
  String.intercalate "/" d.path

/-- Modelled from the spec (section 4.7): a god-directory finding for a
directory whose immediate source-file count exceeds 15 (`warning`) or 30
(`critical`); no finding otherwise. -/
def godDirectoryFinding (d : DirListing) : Option StructuralFinding :=
  if sourceFileCount d > 30 then
    some { type := FindingType.godDirectory, domain := "code-organization",
           severity := Severity.critical, paths := [dirPathString d],
           description := "Directory has more than 30 immediate source files" }
  else if sourceFileCount d > 15 then
    some { type := FindingType.godDirectory, domain := "code-organization",
           severity := Severity.warning, paths := [dirPathString d],
           description := "Directory has more than 15 immediate source files" }
  else none

/-- God-directory findings over the whole tree. -/
def godDirectoryFindings (dirs : List DirListing) : List StructuralFinding :=
  dirs.filterMap godDirectoryFinding

/-- Reconstructs a cycle from a back-edge to the on-stack node `v`:
the nodes above `v` on the DFS stack (most recent first) are the tail of
the cycle, emitted in import order starting at `v` (spec section 4.6). -/
def extractCycle (v : String) (stack : List String) : List String :=
  v :: (stack.takeWhile (fun w => w ≠ v)).reverse

/-- Modelled from the spec (section 4.6): depth-first search with
three-state coloring.  `stack` holds the on-stack (gray) nodes, most
recent first, `fin` the finished (black) nodes; unvisited nodes are in
neither.  A back-edge to an on-stack node signals a cycle, reconstructed
from the stack.  Recursion is by fuel (one unit per descent), which any
fuel exceeding the longest simple path makes semantically irrelevant. -/
def visitNode (adj : String → List String) :
    Nat → String → List String → List String → List (List String) × List String
  | 0 => fun _ _ fin => ([], fin)
  | Nat.succ fuel => fun v stack fin =>
    if v ∈ stack then ([extractCycle v stack], fin)
    else if v ∈ fin then ([], fin)
    else
      let r := (adj v).foldl
        (fun acc w =>
          let s := visitNode adj fuel w (v :: stack) acc.2
          (acc.1 ++ s.1, s.2))
        (([], fin) : List (List String) × List String)
      (r.1, v :: r.2)

/-- All graph nodes, in first-edge order.  A file with no import edges
cannot lie on a cycle, so edge endpoints suffice as DFS roots. -/
def graphNodes (edges : List (String × String)) : List String :=
  (edges.map Prod.fst ++ edges.map Prod.snd).dedup

/-- Adjacency of the directed import graph given by `edges`. -/
def adjOf (edges : List (String × String)) (v : String) : List String :=
  (edges.filter (fun e => e.1 == v)).map Prod.snd

/-- Raw cycles found by one DFS pass over every root (spec section 4.6). -/
def rawCycles (edges : List (String × String)) : List (List String) :=
  let nodes := graphNodes edges
  (nodes.foldl
    (fun acc v =>
      let r := visitNode (adjOf edges) (nodes.length + 1) v [] acc.2
      (acc.1 ++ r.1, r.2))
    (([], []) : List (List String) × List String)).1

/-- Modelled from the spec (section 4.6): a cycle is normalized by
rotating its node sequence so that the lexicographically smallest node
comes first.  Nodes are compared by their character lists. -/
def normalizeCycle (c : List String) : List String :=
  match (c.map String.toList).min? with
  | none => c
  | some m => c.rotate (c.indexOf (String.mk m))

/-- Distinct cycles: raw cycles, normalized, with duplicates removed
(spec section 4.6: rotations of the same node sequence count once). -/
def reportedCycles (edges : List (String × String)) : List (List String) :=
  ((rawCycles edges).map normalizeCycle).dedup

/-- One `circular-dependency` finding per distinct cycle, carrying the
cycle order in `paths`. -/
def cycleFindings (edges : List (String × String)) : List StructuralFinding :=
  (reportedCycles edges).map fun c =>
    { type := FindingType.circularDependency, domain := "code-organization",
      severity := Severity.warning, paths := c,
      description := "Circular dependency: " ++ String.intercalate " -> " c }

/-- Lower-case ASCII letter test. -/
def isLowerAlpha (ch : Char) : Bool := 'a' ≤ ch && ch ≤ 'z'

/-- Upper-case ASCII letter test. -/
def isUpperAlpha (ch : Char) : Bool := 'A' ≤ ch && ch ≤ 'Z'

/-- ASCII digit test. -/
def isDigitChar (ch : Char) : Bool := '0' ≤ ch && ch ≤ '9'

/-- File name without its extensions: the characters before the first dot. -/
def baseNameOf (file : String) : List Char :=
  file.toList.takeWhile (fun ch => ch ≠ '.')

/-- Modelled from the spec (section 4.7): classify a file base name into
kebab-case, snake_case, PascalCase, camelCase or other. -/
def classifyNaming (base : List Char) : String :=
  if base.any (fun ch => ch = '-') then
    if base.all (fun ch => isLowerAlpha ch || isDigitChar ch || ch = '-') then
      "kebab-case"
    else "other"
  else if base.any (fun ch => ch = '_') then
    if base.all (fun ch => isLowerAlpha ch || isDigitChar ch || ch = '_') then
      "snake_case"
    else "other"
  else
    match base with
    | [] => "other"
    | ch :: _ =>
      if isUpperAlpha ch then "PascalCase"
      else if isLowerAlpha ch then "camelCase"
      else "other"

/-- All recognized source-file names of the tree. -/
def allSourceFiles (dirs : List DirListing) : List String :=
  dirs.foldr (fun d acc => d.files.filter isSourceFile ++ acc) []

/-- Count of source files per naming convention (spec section 4.7). -/
def namingConventionCounts (dirs : List DirListing) : List (String × Nat) :=
  ["kebab-case", "camelCase", "PascalCase", "snake_case", "other"].map fun conv =>
    (conv, ((allSourceFiles dirs).filter
      (fun file => classifyNaming (baseNameOf file) == conv)).length)

/-- Modelled from the spec (section 3, `CodeOrganizationStats`). -/
structure CodeOrganizationStats where
  totalSourceFiles : Nat
  maxDirectoryDepth : Nat
  circularDependencyCount : Nat
  namingConventions : List (String × Nat)
deriving DecidableEq

/-- Modelled from the spec: the input facts the code-organization
analyzer works from — the directory listings of the tree and the resolved
relative-import edges between source files (the dependency-graph builder
of spec section 4.5 resolves import specifiers to file nodes; unresolved
targets produce no edge). -/
structure OrgInput where
  dirs : List DirListing
  imports : List (String × String)
deriving DecidableEq

/-- Result of the code-organization analysis: structural findings plus
aggregate statistics (spec section 4.7). -/
structure OrgResult where
  findings : List StructuralFinding
  stats : CodeOrganizationStats
deriving DecidableEq

/-- Modelled from the spec (section 4.7): the code-organization analyzer
merges the per-directory findings with the cycle findings and computes
the aggregate statistics in one pass. -/
def analyzeCodeOrganization (inp : OrgInput) : OrgResult :=
  { findings := godDirectoryFindings inp.dirs ++ cycleFindings inp.imports,
    stats :=
      { totalSourceFiles := (allSourceFiles inp.dirs).length,
        maxDirectoryDepth := (inp.dirs.map (fun d => d.path.length)).foldr max 0,
        circularDependencyCount := (reportedCycles inp.imports).length,
        namingConventions := namingConventionCounts inp.dirs } }

/-- C5: for every directory, an immediate source-file count of at most 15
yields no god-directory finding, a count in (15, 30] yields a warning
finding, and a count above 30 yields a critical finding; the analyzer's
god-directory findings are exactly the per-directory ones. -/
theorem c5_god_directory_thresholds :
    (∀ d : DirListing,
      (sourceFileCount d ≤ 15 → godDirectoryFinding d = none) ∧
      (15 < sourceFileCount d → sourceFileCount d ≤ 30 →
        ∃ f, godDirectoryFinding d = some f ∧
          f.type = FindingType.godDirectory ∧ f.severity = Severity.warning) ∧
      (30 < sourceFileCount d →
        ∃ f, godDirectoryFinding d = some f ∧
          f.type = FindingType.godDirectory ∧ f.severity = Severity.critical)) ∧
    (∀ inp : OrgInput,
      (analyzeCodeOrganization inp).findings.filter
          (fun f => f.type == FindingType.godDirectory) =
        godDirectoryFindings inp.dirs) := by
  constructor
  · intro d
    refine ⟨fun h => ?_, fun h₁ h₂ => ?_, fun h => ?_⟩
    · simp only [godDirectoryFinding]
      split_ifs <;> first | rfl | omega
    · simp only [godDirectoryFinding]
      split_ifs <;> first | exact ⟨_, rfl, rfl, rfl⟩ | omega
    · simp only [godDirectoryFinding]
      split_ifs <;> first | exact ⟨_, rfl, rfl, rfl⟩ | omega
  · intro inp
    simp only [analyzeCodeOrganization, List.filter_append]
    have h₁ : (godDirectoryFindings inp.dirs).filter
        (fun f => f.type == FindingType.godDirectory) = godDirectoryFindings inp.dirs := by
      rw [List.filter_eq_self]
      intro f hf
      rw [godDirectoryFindings, List.mem_filterMap] at hf
      obtain ⟨d, _, hd⟩ := hf
      simp only [godDirectoryFinding] at hd
      split_ifs at hd <;> cases hd <;> rfl
    have h₂ : (cycleFindings inp.imports).filter
        (fun f => f.type == FindingType.godDirectory) = [] := by
      rw [List.filter_eq_nil_iff]
      intro f hf
      rw [cycleFindings, List.mem_map] at hf
      obtain ⟨c, _, rfl⟩ := hf
      simp
    rw [h₁, h₂, List.append_nil]

/-- C5 witness: a 10-file directory is not flagged, a 20-file directory is
a warning and a 35-file directory is critical. -/
theorem c5_god_directory_thresholds_witness :
    godDirectoryFinding ⟨["src", "small"], List.replicate 10 "a.ts"⟩ = none ∧
    (∃ f, godDirectoryFinding ⟨["src", "medium"], List.replicate 20 "a.ts"⟩ = some f ∧
      f.type = FindingType.godDirectory ∧ f.severity = Severity.warning) ∧
    (∃ f, godDirectoryFinding ⟨["src", "big"], List.replicate 35 "a.ts"⟩ = some f ∧
      f.type = FindingType.godDirectory ∧ f.severity = Severity.critical) :=
  ⟨(c5_god_directory_thresholds.1 _).1 (by decide),
   (c5_god_directory_thresholds.1 _).2.1 (by decide) (by decide),
   (c5_god_directory_thresholds.1 _).2.2 (by decide)⟩

/-- The minimum of a list of character lists is characterized by
membership plus minimality. -/
lemma charList_min?_eq_some_iff {l : List (List Char)} {m : List Char} :
    l.min? = some m ↔ m ∈ l ∧ ∀ b ∈ l, m ≤ b := by
  haveI : Std.Antisymm (fun a b : List Char => a ≤ b) :=
    ⟨fun h h' => le_antisymm h h'⟩
  exact List.min?_eq_some_iff (fun a => le_refl a) (fun a b => min_choice a b)
    (fun a b c => le_min_iff)

/-- Permuted lists of character lists have the same minimum. -/
lemma charList_min?_eq_of_perm {l₁ l₂ : List (List Char)} (h : l₁.Perm l₂) :
    l₁.min? = l₂.min? := by
  cases h₁ : l₁.min? with
  | none =>
    rw [List.min?_eq_none_iff] at h₁
    subst h₁
    rw [List.min?_eq_none_iff.mpr h.symm.eq_nil]
  | some m =>
    rw [charList_min?_eq_some_iff] at h₁
    exact (charList_min?_eq_some_iff.mpr
      ⟨h.mem_iff.mp h₁.1, fun b hb => h₁.2 b (h.mem_iff.mpr hb)⟩).symm

/-- Rotating a nodup list by two amounts that put the same element first
gives the same list. -/
lemma rotate_eq_rotate_of_head? {c : List String} (hnd : c.Nodup) (hne : c ≠ [])
    {i j : Nat} (hij : (c.rotate i).head? = (c.rotate j).head?) :
    c.rotate i = c.rotate j := by
  have hlen : 0 < c.length := List.length_pos.mpr hne
  have hi : i % c.length < c.length := Nat.mod_lt _ hlen
  have hj : j % c.length < c.length := Nat.mod_lt _ hlen
  rw [← List.rotate_mod c i, ← List.rotate_mod c j] at hij ⊢
  rw [List.head?_rotate hi, List.head?_rotate hj] at hij
  rw [List.getElem?_eq_getElem hi, List.getElem?_eq_getElem hj] at hij
  have heq : i % c.length = j % c.length :=
    (hnd.getElem_inj_iff).mp (Option.some_inj.mp hij)
  rw [heq]

/-- The normalized form of a cycle is one of its rotations. -/
lemma isRotated_normalizeCycle (c : List String) :
    c.IsRotated (normalizeCycle c) := by
  rw [normalizeCycle]
  cases h : (c.map String.toList).min? with
  | none => exact ⟨0, List.rotate_zero c⟩
  | some m => exact ⟨c.indexOf (String.mk m), rfl⟩

/-- Rotation-equivalent nodup cycles have the same normalized form:
the lexicographically smallest node of a nodup cycle occurs exactly once,
so rotating it to the front is a canonical choice. -/
lemma normalizeCycle_congr {c d : List String} (hnd : c.Nodup)
    (h : c.IsRotated d) : normalizeCycle c = normalizeCycle d := by
  obtain ⟨n, rfl⟩ := h
  rcases eq_or_ne c [] with rfl | hne
  · rw [List.rotate_nil]
  · have hp : (c.rotate n).Perm c := List.rotate_perm c n
    have hmin : ((c.rotate n).map String.toList).min? =
        (c.map String.toList).min? :=
      charList_min?_eq_of_perm (hp.map String.toList)
    obtain ⟨m, hm⟩ : ∃ m, (c.map String.toList).min? = some m := by
      cases hmm : (c.map String.toList).min? with
      | none =>
        rw [List.min?_eq_none_iff, List.map_eq_nil_iff] at hmm
        exact absurd hmm hne
      | some m => exact ⟨m, rfl⟩
    obtain ⟨s, hsc, hsm⟩ :=
      List.mem_map.mp (charList_min?_eq_some_iff.mp hm).1
    have hmk : String.mk m = s := by cases s; cases hsm; rfl
    simp only [normalizeCycle, hm, hmin]
    rw [hmk, List.rotate_rotate]
    have hsd : s ∈ c.rotate n := hp.mem_iff.mpr hsc
    apply rotate_eq_rotate_of_head? hnd hne
    have h₁ : (c.rotate (c.indexOf s)).head? = some s := by
      have hlt : c.indexOf s < c.length := List.indexOf_lt_length.mpr hsc
      rw [List.head?_rotate hlt, List.getElem?_eq_getElem hlt,
        List.getElem_indexOf hlt]
    have h₂ : ((c.rotate n).rotate ((c.rotate n).indexOf s)).head? = some s := by
      have hlt : (c.rotate n).indexOf s < (c.rotate n).length :=
        List.indexOf_lt_length.mpr hsd
      rw [List.head?_rotate hlt, List.getElem?_eq_getElem hlt,
        List.getElem_indexOf hlt]
    rw [List.rotate_rotate] at h₂
    rw [h₁, h₂]

/-- C6: mutual imports `a.ts -> b.ts -> a.ts` yield exactly one
circular-dependency finding and `circularDependencyCount = 1`; the acyclic
chain `a -> b -> c` yields zero findings and a zero count; and in general
the reported cycles (normalized and deduplicated) never contain two
entries that are rotations of one and the same node sequence. -/
theorem c6_circular_dependency_detection :
    (let inp : OrgInput :=
      { dirs := [⟨["src"], ["a.ts", "b.ts"]⟩],
        imports := [("a.ts", "b.ts"), ("b.ts", "a.ts")] }
     ((analyzeCodeOrganization inp).findings.filter
        (fun f => f.type == FindingType.circularDependency)).length = 1 ∧
     (analyzeCodeOrganization inp).stats.circularDependencyCount = 1) ∧
    (let inp : OrgInput :=
      { dirs := [⟨["src"], ["a.ts", "b.ts", "c.ts"]⟩],
        imports := [("a.ts", "b.ts"), ("b.ts", "c.ts")] }
     ((analyzeCodeOrganization inp).findings.filter
        (fun f => f.type == FindingType.circularDependency)).length = 0 ∧
     (analyzeCodeOrganization inp).stats.circularDependencyCount = 0) ∧
    (∀ raw : List (List String), (∀ c ∈ raw, c.Nodup) →
      ((raw.map normalizeCycle).dedup).Pairwise
        (fun c d => ¬ c.IsRotated d)) := by
  refine ⟨by decide, by decide, ?_⟩
  intro raw h
  refine (List.nodup_dedup (raw.map normalizeCycle)).imp_of_mem ?_
  intro a b ha hb hne hrot
  rw [List.mem_dedup] at ha hb
  obtain ⟨x, hx, rfl⟩ := List.mem_map.mp ha
  obtain ⟨y, hy, rfl⟩ := List.mem_map.mp hb
  have hxnd : x.Nodup := h x hx
  have hynd : y.Nodup := h y hy
  have hnx : (normalizeCycle x).Nodup :=
    ((isRotated_normalizeCycle x).nodup_iff).mp hxnd
  have hfix_x : normalizeCycle (normalizeCycle x) = normalizeCycle x :=
    (normalizeCycle_congr hxnd (isRotated_normalizeCycle x)).symm
  have hfix_y : normalizeCycle (normalizeCycle y) = normalizeCycle y :=
    (normalizeCycle_congr hynd (isRotated_normalizeCycle y)).symm
  have : normalizeCycle (normalizeCycle x) = normalizeCycle (normalizeCycle y) :=
    normalizeCycle_congr hnx hrot
  rw [hfix_x, hfix_y] at this
  exact hne this

/-- C6 witness: two raw cycles that are rotations of each other are
reported once, and the reported list contains no rotation-equivalent
pair. -/
theorem c6_circular_dependency_detection_witness :
    (([["b.ts", "a.ts"], ["a.ts", "b.ts"]].map normalizeCycle).dedup).Pairwise
      (fun c d => ¬ c.IsRotated d) :=
  c6_circular_dependency_detection.2.2
    [["b.ts", "a.ts"], ["a.ts", "b.ts"]] (by decide)

/-! ## Scan orchestrator (modelled from the spec)

`src/analyzer/scanner.ts` is not among the provided sources; only its
tests are.  The orchestration below is modelled from spec sections 4.2,
4.4, 6 and 7. -/

/-- Modelled from the spec (section 3, `Workspace`). -/
structure Workspace where
  root : String
  language : String
  packageManager : String
  dependencies : List (String × String)
deriving DecidableEq

/-- Modelled from the spec (section 3, `Detection`). -/
structure Detection where
  filePath : String
  lineStart : Nat
  lineEnd : Nat
  patternCategory : String
  confidenceScore : ℚ
  domain : String
deriving DecidableEq

/-- Modelled from the spec (section 6): the aggregate scan result. -/
structure ScanResult where
  detections : List Detection
  structuralFindings : List StructuralFinding
  codeOrganizationStats : CodeOrganizationStats
  workspaces : List Workspace
deriving DecidableEq

/-- Modelled from the spec: the facts a scan invocation works from.
`rootExists` models whether the scan root path exists.  `firstMatch`
abstracts the pattern-matching engine's regex application (spec section
4.4): for a pattern and a file path it yields the 1-based line range of
the first match of any of the pattern's matchers in that file's content,
or `none`; JavaScript regex execution itself is outside the embedding.
`designAnalysis` abstracts the design-system structural analyzer, which
the spec leaves outside the code-organization core. -/
structure ScanInput where
  rootExists : Bool
  org : OrgInput
  workspaces : List Workspace
  firstMatch : PatternDefinition → String → Option (Nat × Nat)
  designAnalysis : List StructuralFinding

/-- Zero statistics, as returned for a missing scan root (spec section 7). -/
def emptyStats : CodeOrganizationStats :=
  { totalSourceFiles := 0, maxDirectoryDepth := 0,
    circularDependencyCount := 0, namingConventions := [] }

/-- The empty scan result for a missing root (spec section 7: empty
detections, empty workspaces, zero stats, no findings). -/
def emptyScanResult : ScanResult :=
  { detections := [], structuralFindings := [],
    codeOrganizationStats := emptyStats, workspaces := [] }

/-- Modelled from the spec (section 4.4): one detection per
(pattern, file) pair on the first match, carrying the pattern's id,
domain and base confidence. -/
def detectionsOf (inp : ScanInput) : List Detection :=
  (allSourceFiles inp.org.dirs).foldr
    (fun file acc =>
      (getPatternCatalog.filterMap fun p =>
        match inp.firstMatch p file with
        | some (s, e) =>
          some { filePath := file, lineStart := s, lineEnd := e,
                 patternCategory := p.id, confidenceScore := p.confidenceBase,
                 domain := p.domain }
        | none => none) ++ acc)
    []

/-- Modelled from the spec (sections 4.2, 6, 7): the scan orchestrator.
A missing root yields the empty result.  Otherwise detections, the
code-organization findings and stats, and the workspaces are always
produced; the design-system structural findings are produced only for
monorepos (more than one workspace). -/
def scanCodebase (inp : ScanInput) : ScanResult :=
  if inp.rootExists = false then emptyScanResult
  else
    { detections := detectionsOf inp,
      structuralFindings :=
        (if inp.workspaces.length > 1 then inp.designAnalysis else []) ++
          (analyzeCodeOrganization inp.org).findings,
      codeOrganizationStats := (analyzeCodeOrganization inp.org).stats,
      workspaces := inp.workspaces }

/-- C7: scanning a non-existent root returns normally with the empty
result — no detections, no workspaces, no findings and zero stats. -/
theorem c7_missing_root_empty_result :
    ∀ inp : ScanInput, inp.rootExists = false →
      (scanCodebase inp).detections = [] ∧
      (scanCodebase inp).workspaces = [] ∧
      (scanCodebase inp).structuralFindings = [] ∧
      (scanCodebase inp).codeOrganizationStats = emptyStats := by
  intro inp h
  simp [scanCodebase, h, emptyScanResult]

/-- C7 witness: a concrete input whose root does not exist. -/
theorem c7_missing_root_empty_result_witness :
    (scanCodebase
      { rootExists := false,
        org := { dirs := [⟨["src"], ["a.ts"]⟩], imports := [] },
        workspaces := [⟨".", "typescript", "npm", []⟩],
        firstMatch := fun _ _ => some (1, 1),
        designAnalysis := [] }).detections = [] ∧
    (scanCodebase
      { rootExists := false,
        org := { dirs := [⟨["src"], ["a.ts"]⟩], imports := [] },
        workspaces := [⟨".", "typescript", "npm", []⟩],
        firstMatch := fun _ _ => some (1, 1),
        designAnalysis := [] }).workspaces = [] ∧
    (scanCodebase
      { rootExists := false,
        org := { dirs := [⟨["src"], ["a.ts"]⟩], imports := [] },
        workspaces := [⟨".", "typescript", "npm", []⟩],
        firstMatch := fun _ _ => some (1, 1),
        designAnalysis := [] }).structuralFindings = [] ∧
    (scanCodebase
      { rootExists := false,
        org := { dirs := [⟨["src"], ["a.ts"]⟩], imports := [] },
        workspaces := [⟨".", "typescript", "npm", []⟩],
        firstMatch := fun _ _ => some (1, 1),
        designAnalysis := [] }).codeOrganizationStats = emptyStats :=
  c7_missing_root_empty_result _ rfl

/-- C8: whenever the root exists the scan result carries the
code-organization output — the stats and every code-organization finding
— for monorepos and single-workspace projects alike; for a
single-workspace project exactly the design-system-specific findings are
absent, so the structural findings are then the code-organization
findings alone. -/
theorem c8_code_organization_always_present :
    ∀ inp : ScanInput, inp.rootExists = true →
      (scanCodebase inp).codeOrganizationStats =
        (analyzeCodeOrganization inp.org).stats ∧
      (∀ f ∈ (analyzeCodeOrganization inp.org).findings,
        f ∈ (scanCodebase inp).structuralFindings) ∧
      (inp.workspaces.length ≤ 1 →
        (scanCodebase inp).structuralFindings =
          (analyzeCodeOrganization inp.org).findings) := by
  intro inp h
  refine ⟨?_, ?_, ?_⟩
  · simp [scanCodebase, h]
  · intro f hf
    simp [scanCodebase, h, List.mem_append, hf]
  · intro hw
    have : ¬ inp.workspaces.length > 1 := by omega
    simp [scanCodebase, h, this]

/-- Input of the C8 witness: a single-workspace project whose tree
contains a god directory. -/
def singleWorkspaceScan : ScanInput :=
  { rootExists := true,
    org := { dirs := [⟨["src", "components"], List.replicate 20 "a.ts"⟩],
             imports := [] },
    workspaces := [⟨".", "typescript", "npm", []⟩],
    firstMatch := fun _ _ => none,
    designAnalysis := [] }

/-- C8 witness: a single-workspace project whose tree contains a god
directory still receives the code-organization findings and the stats. -/
theorem c8_code_organization_always_present_witness :
    (∀ f ∈ (analyzeCodeOrganization singleWorkspaceScan.org).findings,
      f ∈ (scanCodebase singleWorkspaceScan).structuralFindings) ∧
    (scanCodebase singleWorkspaceScan).structuralFindings =
      (analyzeCodeOrganization singleWorkspaceScan.org).findings :=
  ⟨(c8_code_organization_always_present singleWorkspaceScan rfl).2.1,
   (c8_code_organization_always_present singleWorkspaceScan rfl).2.2 (by decide)⟩

/-! ## Context7 verification client (from `src/analyzer/pattern-catalog.ts`)

The retry helper and the two verification functions below are embedded
from the source.  Asynchrony is modelled by indexing each external call
with its attempt number: a client maps the attempt number to either a
thrown error (`Except.error`) or a resolved value, and a trace of call
and sleep events records the observable behaviour. -/

/-- Documentation lookup result of `getLibraryDocs`. -/
structure LibDocs where
  url : String
  version : String
deriving DecidableEq

/-- Observable events of a verification run: an invocation of
`resolveLibraryId`, an invocation of `getLibraryDocs` (each tagged with
its attempt number), or a sleep of the given number of milliseconds. -/
inductive CallEvent
  | resolveCall (attempt : Nat)
  | docsCall (attempt : Nat)
  | sleep (ms : Nat)
deriving DecidableEq

/-- Embeds the `Context7Client` interface: `resolveLibraryId` takes the
library name and the query, `getLibraryDocs` the library id and the
query.  The extra `Nat` argument is the attempt number, modelling the
outcome of each successive invocation of the external service. -/
structure Context7Client where
  resolveLibraryId : String → String → Nat → Except String (Option String)
  getLibraryDocs : String → String → Nat → Except String (Option LibDocs)

/-- Embeds `MAX_RETRIES` (maximum retry attempts). -/
def MAX_RETRIES : Nat := 3

/-- Embeds `BASE_DELAY_MS` (base delay for exponential backoff in ms). -/
def BASE_DELAY_MS : Nat := 1000

/-- Embeds the loop of `retryWithBackoff`: attempts run while
`attempt < MAX_RETRIES` (`remaining` counts the attempts left); a success
returns immediately, a failure stores the error and, when another attempt
follows (`attempt < MAX_RETRIES - 1`), sleeps `BASE_DELAY_MS * 2 ^
attempt` before it; once attempts are exhausted the last error is
rethrown.  The second component is the event trace. -/
def retryAux (fn : Nat → Except String α) (mk : Nat → CallEvent)
    (lastErr : String) : Nat → Nat → Except String α × List CallEvent
  | _, 0 => (Except.error lastErr, [])
  | attempt, Nat.succ remaining =>
    match fn attempt with
    | Except.ok a => (Except.ok a, [mk attempt])
    | Except.error e =>
      let tail := retryAux fn mk e (attempt + 1) remaining
      if attempt < MAX_RETRIES - 1 then
        (tail.1, mk attempt :: CallEvent.sleep (BASE_DELAY_MS * 2 ^ attempt) :: tail.2)
      else
        (tail.1, mk attempt :: tail.2)

/-- Embeds `retryWithBackoff` from `src/analyzer/pattern-catalog.ts`. -/
def retryWithBackoff (fn : Nat → Except String α) (mk : Nat → CallEvent) :
    Except String α × List CallEvent :=
  retryAux fn mk "" 0 MAX_RETRIES

/-- Status of a `VerificationResult`. -/
inductive VerificationStatus
  | verified
  | unverified
  | unavailable
deriving DecidableEq

/-- Embeds the `VerificationResult` interface. -/
structure VerificationResult where
  status : VerificationStatus
  libraryId : Option String := none
  documentationUrl : Option String := none
  version : Option String := none
  note : Option String := none
deriving DecidableEq

/-- Embeds `verifyRecommendation` from `src/analyzer/pattern-catalog.ts`:
resolve the library id with backoff (throwing after `MAX_RETRIES`
failures yields status `unavailable`); a `null` id yields `unverified`
without consulting the docs; otherwise fetch the docs with backoff
(`unavailable` on exhaustion, `unverified` on `null`, `verified` with the
documentation URL and version on success).  The second component is the
event trace of the run. -/
def verifyRecommendation (client : Context7Client)
    (libraryName useCase : String) : VerificationResult × List CallEvent :=
  let r₁ := retryWithBackoff (client.resolveLibraryId libraryName useCase)
    CallEvent.resolveCall
  match r₁.1 with
  | Except.error _ =>
    ({ status := VerificationStatus.unavailable,
       note := some ("Context7 service error resolving library \"" ++
         libraryName ++ "\" after " ++ toString MAX_RETRIES ++ " retries") },
     r₁.2)
  | Except.ok none =>
    ({ status := VerificationStatus.unverified,
       note := some ("Library \"" ++ libraryName ++ "\" not found in Context7") },
     r₁.2)
  | Except.ok (some libraryId) =>
    let r₂ := retryWithBackoff (client.getLibraryDocs libraryId useCase)
      CallEvent.docsCall
    match r₂.1 with
    | Except.error _ =>
      ({ status := VerificationStatus.unavailable, libraryId := some libraryId,
         note := some ("Context7 service error fetching docs for \"" ++
           libraryName ++ "\" after " ++ toString MAX_RETRIES ++ " retries") },
       r₁.2 ++ r₂.2)
    | Except.ok none =>
      ({ status := VerificationStatus.unverified, libraryId := some libraryId,
         note := some ("Documentation for \"" ++ libraryName ++
           "\" does not confirm use case \"" ++ useCase ++ "\"") },
       r₁.2 ++ r₂.2)
    | Except.ok (some docs) =>
      ({ status := VerificationStatus.verified, libraryId := some libraryId,
         documentationUrl := some docs.url, version := some docs.version },
       r₁.2 ++ r₂.2)

/-- Number of `resolveLibraryId` invocations in a trace. -/
def resolveCallCount (evs : List CallEvent) : Nat :=
  (evs.filter fun e =>
    match e with
    | CallEvent.resolveCall _ => true
    | _ => false).length

/-- Number of `getLibraryDocs` invocations in a trace. -/
def docsCallCount (evs : List CallEvent) : Nat :=
  (evs.filter fun e =>
    match e with
    | CallEvent.docsCall _ => true
    | _ => false).length

/-- The sleep durations of a trace, in order. -/
def sleepsOf (evs : List CallEvent) : List Nat :=
  evs.filterMap fun e =>
    match e with
    | CallEvent.sleep ms => some ms
    | _ => none

/-- With `MAX_RETRIES = 3`, a retried call resolves on attempt 0, 1 or 2:
the result is the outcome of the last attempt made, and the trace is the
calls interleaved with the exponential-backoff sleeps. -/
lemma retryWithBackoff_spec (fn : Nat → Except String α) (mk : Nat → CallEvent) :
    ((retryWithBackoff fn mk).1 = fn 0 ∧ (retryWithBackoff fn mk).2 = [mk 0]) ∨
    ((retryWithBackoff fn mk).1 = fn 1 ∧
      (retryWithBackoff fn mk).2 = [mk 0, CallEvent.sleep 1000, mk 1]) ∨
    ((retryWithBackoff fn mk).1 = fn 2 ∧
      (retryWithBackoff fn mk).2 =
        [mk 0, CallEvent.sleep 1000, mk 1, CallEvent.sleep 2000, mk 2]) := by
  rcases h0 : fn 0 with e0 | a0
  · rcases h1 : fn 1 with e1 | a1
    · rcases h2 : fn 2 with e2 | a2
      · refine Or.inr (Or.inr ?_)
        simp [retryWithBackoff, retryAux, h0, h1, h2, MAX_RETRIES, BASE_DELAY_MS]
      · refine Or.inr (Or.inr ?_)
        simp [retryWithBackoff, retryAux, h0, h1, h2, MAX_RETRIES, BASE_DELAY_MS]
    · refine Or.inr (Or.inl ?_)
      simp [retryWithBackoff, retryAux, h0, h1, MAX_RETRIES, BASE_DELAY_MS]
  · refine Or.inl ?_
    simp [retryWithBackoff, retryAux, h0, MAX_RETRIES]

/-- Trace bounds for the resolve phase: at most `MAX_RETRIES` resolve
calls, no docs calls, and the sleeps are an initial run of
1000 ms, 2000 ms. -/
lemma resolve_trace_bound (fn : Nat → Except String (Option String)) :
    resolveCallCount (retryWithBackoff fn CallEvent.resolveCall).2 ≤ MAX_RETRIES ∧
    docsCallCount (retryWithBackoff fn CallEvent.resolveCall).2 = 0 ∧
    (∃ t, sleepsOf (retryWithBackoff fn CallEvent.resolveCall).2 ++ t =
      [1000, 2000]) := by
  rcases retryWithBackoff_spec fn CallEvent.resolveCall with ⟨_, h⟩ | ⟨_, h⟩ | ⟨_, h⟩ <;>
    rw [h]
  · exact ⟨by decide, by decide, [1000, 2000], by decide⟩
  · exact ⟨by decide, by decide, [2000], by decide⟩
  · exact ⟨by decide, by decide, [], by decide⟩

/-- Trace bounds for the docs phase: at most `MAX_RETRIES` docs calls,
no resolve calls, and the sleeps are an initial run of 1000 ms, 2000 ms. -/
lemma docs_trace_bound (fn : Nat → Except String (Option LibDocs)) :
    docsCallCount (retryWithBackoff fn CallEvent.docsCall).2 ≤ MAX_RETRIES ∧
    resolveCallCount (retryWithBackoff fn CallEvent.docsCall).2 = 0 ∧
    (∃ t, sleepsOf (retryWithBackoff fn CallEvent.docsCall).2 ++ t =
      [1000, 2000]) := by
  rcases retryWithBackoff_spec fn CallEvent.docsCall with ⟨_, h⟩ | ⟨_, h⟩ | ⟨_, h⟩ <;>
    rw [h]
  · exact ⟨by decide, by decide, [1000, 2000], by decide⟩
  · exact ⟨by decide, by decide, [2000], by decide⟩
  · exact ⟨by decide, by decide, [], by decide⟩

/-- Call counts add over concatenated traces. -/
lemma resolveCallCount_append (a b : List CallEvent) :
    resolveCallCount (a ++ b) = resolveCallCount a + resolveCallCount b := by
  simp [resolveCallCount, List.filter_append]

/-- Docs call counts add over concatenated traces. -/
lemma docsCallCount_append (a b : List CallEvent) :
    docsCallCount (a ++ b) = docsCallCount a + docsCallCount b := by
  simp [docsCallCount, List.filter_append]

/-- Sleep lists concatenate over concatenated traces. -/
lemma sleepsOf_append (a b : List CallEvent) :
    sleepsOf (a ++ b) = sleepsOf a ++ sleepsOf b := by
  simp [sleepsOf, List.filterMap_append]

/-- The trace of a verification run is the resolve-phase trace, followed
by the docs-phase trace when a library id was resolved. -/
lemma verifyRecommendation_trace (client : Context7Client) (n u : String) :
    (verifyRecommendation client n u).2 =
      (retryWithBackoff (client.resolveLibraryId n u) CallEvent.resolveCall).2 ∨
    ∃ libId,
      (retryWithBackoff (client.resolveLibraryId n u) CallEvent.resolveCall).1 =
        Except.ok (some libId) ∧
      (verifyRecommendation client n u).2 =
        (retryWithBackoff (client.resolveLibraryId n u) CallEvent.resolveCall).2 ++
          (retryWithBackoff (client.getLibraryDocs libId u) CallEvent.docsCall).2 := by
  rcases hc : (retryWithBackoff (client.resolveLibraryId n u)
      CallEvent.resolveCall).1 with e | o
  · left
    simp only [verifyRecommendation, hc]
  · cases o with
    | none =>
      left
      simp only [verifyRecommendation, hc]
    | some libId =>
      right
      refine ⟨libId, rfl, ?_⟩
      simp only [verifyRecommendation, hc]
      rcases hdc : (retryWithBackoff (client.getLibraryDocs libId u)
          CallEvent.docsCall).1 with e2 | o2
      · simp only [hdc]
      · cases o2 <;> simp only [hdc]

/-- C9: each external call is attempted at most `MAX_RETRIES = 3` times;
the sleeps of a run are the exponential-backoff delays, 1000 ms then
2000 ms, per call phase; a resolve phase whose every attempt throws ends
in status `unavailable`; a resolved `null` id ends in `unverified`
without any docs call; and resolved docs end in `verified` carrying the
documentation URL and version. -/
theorem c9_verification_retry_policy :
    ∀ (client : Context7Client) (libraryName useCase : String),
      (resolveCallCount (verifyRecommendation client libraryName useCase).2 ≤
          MAX_RETRIES ∧
        docsCallCount (verifyRecommendation client libraryName useCase).2 ≤
          MAX_RETRIES) ∧
      (∃ s₁ s₂,
        sleepsOf (verifyRecommendation client libraryName useCase).2 = s₁ ++ s₂ ∧
        (∃ t, s₁ ++ t = [1000, 2000]) ∧ (∃ t, s₂ ++ t = [1000, 2000])) ∧
      ((∀ k, ∃ e, client.resolveLibraryId libraryName useCase k =
          Except.error e) →
        (verifyRecommendation client libraryName useCase).1.status =
          VerificationStatus.unavailable) ∧
      ((retryWithBackoff (client.resolveLibraryId libraryName useCase)
          CallEvent.resolveCall).1 = Except.ok none →
        (verifyRecommendation client libraryName useCase).1.status =
            VerificationStatus.unverified ∧
          docsCallCount (verifyRecommendation client libraryName useCase).2 = 0) ∧
      (∀ libId docs,
        (retryWithBackoff (client.resolveLibraryId libraryName useCase)
            CallEvent.resolveCall).1 = Except.ok (some libId) →
        (retryWithBackoff (client.getLibraryDocs libId useCase)
            CallEvent.docsCall).1 = Except.ok (some docs) →
        (verifyRecommendation client libraryName useCase).1 =
          { status := VerificationStatus.verified, libraryId := some libId,
            documentationUrl := some docs.url, version := some docs.version }) := by
  intro client n u
  obtain ⟨hr1, hr1d, t1, ht1⟩ := resolve_trace_bound (client.resolveLibraryId n u)
  refine ⟨?_, ?_, ?_, ?_, ?_⟩
  · rcases verifyRecommendation_trace client n u with h | ⟨libId, _, h⟩
    · rw [h, hr1d]
      exact ⟨hr1, by omega⟩
    · obtain ⟨hd1, hd1r, t2, ht2⟩ := docs_trace_bound (client.getLibraryDocs libId u)
      rw [h, resolveCallCount_append, docsCallCount_append, hr1d, hd1r]
      exact ⟨by omega, by omega⟩
  · rcases verifyRecommendation_trace client n u with h | ⟨libId, _, h⟩
    · exact ⟨sleepsOf (retryWithBackoff (client.resolveLibraryId n u)
          CallEvent.resolveCall).2, [], by rw [h, List.append_nil], ⟨t1, ht1⟩,
        ⟨[1000, 2000], rfl⟩⟩
    · obtain ⟨hd1, hd1r, t2, ht2⟩ := docs_trace_bound (client.getLibraryDocs libId u)
      exact ⟨sleepsOf (retryWithBackoff (client.resolveLibraryId n u)
          CallEvent.resolveCall).2,
        sleepsOf (retryWithBackoff (client.getLibraryDocs libId u)
          CallEvent.docsCall).2,
        by rw [h, sleepsOf_append], ⟨t1, ht1⟩, ⟨t2, ht2⟩⟩
  · intro hall
    have herr : ∃ e, (retryWithBackoff (client.resolveLibraryId n u)
        CallEvent.resolveCall).1 = Except.error e := by
      rcases retryWithBackoff_spec (client.resolveLibraryId n u)
          CallEvent.resolveCall with ⟨h, _⟩ | ⟨h, _⟩ | ⟨h, _⟩
      · obtain ⟨e, he⟩ := hall 0
        exact ⟨e, by rw [h, he]⟩
      · obtain ⟨e, he⟩ := hall 1
        exact ⟨e, by rw [h, he]⟩
      · obtain ⟨e, he⟩ := hall 2
        exact ⟨e, by rw [h, he]⟩
    obtain ⟨e, he⟩ := herr
    simp only [verifyRecommendation, he]
  · intro hnone
    constructor
    · simp only [verifyRecommendation, hnone]
    · simp only [verifyRecommendation, hnone]
      exact hr1d
  · intro libId docs h₁ h₂
    simp only [verifyRecommendation, h₁, h₂]

/-- A client whose resolve phase always throws. -/
def failingClient : Context7Client :=
  { resolveLibraryId := fun _ _ _ => Except.error "HTTP 503",
    getLibraryDocs := fun _ _ _ => Except.error "HTTP 503" }

/-- A client that resolves no library id. -/
def nullClient : Context7Client :=
  { resolveLibraryId := fun _ _ _ => Except.ok none,
    getLibraryDocs := fun _ _ _ => Except.error "unreachable" }

/-- A client that succeeds on the first attempt of both phases. -/
def successClient : Context7Client :=
  { resolveLibraryId := fun _ _ k =>
      if k = 0 then Except.ok (some "/colinhacks/zod")
      else Except.error "unreachable",
    getLibraryDocs := fun _ _ _ =>
      Except.ok (some ⟨"https://zod.dev", "3.23.8"⟩) }

/-- C9 witness: an always-throwing client ends `unavailable`, a
null-resolving client ends `unverified` with no docs call, and a
successful client ends `verified` with the documentation data. -/
theorem c9_verification_retry_policy_witness :
    (verifyRecommendation failingClient "left-pad" "padding").1.status =
      VerificationStatus.unavailable ∧
    ((verifyRecommendation nullClient "no-such-lib" "anything").1.status =
        VerificationStatus.unverified ∧
      docsCallCount (verifyRecommendation nullClient "no-such-lib" "anything").2 = 0) ∧
    (verifyRecommendation successClient "zod" "schema validation").1 =
      { status := VerificationStatus.verified, libraryId := some "/colinhacks/zod",
        documentationUrl := some "https://zod.dev", version := some "3.23.8" } :=
  ⟨(c9_verification_retry_policy failingClient "left-pad" "padding").2.2.1
      (fun _ => ⟨"HTTP 503", rfl⟩),
   (c9_verification_retry_policy nullClient "no-such-lib" "anything").2.2.2.1 rfl,
   (c9_verification_retry_policy successClient "zod" "schema validation").2.2.2.2
      "/colinhacks/zod" ⟨"https://zod.dev", "3.23.8"⟩ rfl rfl⟩

/-- Embeds the `VerificationItem` interface. -/
structure VerificationItem where
  libraryName : String
  useCase : String
deriving DecidableEq

/-- Embeds the loop of `verifyAllRecommendations`: items are processed in
order with their index; `null` items are skipped; each non-null item is
verified independently and its result recorded under its index. -/
def verifyAllAux (client : Context7Client) :
    Nat → List (Option VerificationItem) → List (Nat × VerificationResult)
  | _, [] => []
  | i, none :: rest => verifyAllAux client (i + 1) rest
  | i, some item :: rest =>
    (i, (verifyRecommendation client item.libraryName item.useCase).1) ::
      verifyAllAux client (i + 1) rest

/-- Embeds `verifyAllRecommendations` from
`src/analyzer/pattern-catalog.ts`; the insertion-ordered association list
models the returned `Map` keyed by detection index. -/
def verifyAllRecommendations (client : Context7Client)
    (items : List (Option VerificationItem)) : List (Nat × VerificationResult) :=
  verifyAllAux client 0 items

/-- Membership characterization of the batch-verification loop, with an
arbitrary starting index. -/
lemma verifyAllAux_mem (client : Context7Client) :
    ∀ (items : List (Option VerificationItem)) (start i : Nat)
      (r : VerificationResult),
      ((i, r) ∈ verifyAllAux client start items ↔
        ∃ j item, i = start + j ∧ items[j]? = some (some item) ∧
          r = (verifyRecommendation client item.libraryName item.useCase).1) := by
  intro items
  induction items with
  | nil =>
    intro start i r
    simp [verifyAllAux]
  | cons hd tl ih =>
    intro start i r
    cases hd with
    | none =>
      simp only [verifyAllAux]
      rw [ih (start + 1) i r]
      constructor
      · rintro ⟨j, item, rfl, hj, hr⟩
        exact ⟨j + 1, item, by omega, by simpa using hj, hr⟩
      · rintro ⟨j, item, hij, hj, hr⟩
        cases j with
        | zero => simp at hj
        | succ j' =>
          exact ⟨j', item, by omega, by simpa using hj, hr⟩
    | some item₀ =>
      simp only [verifyAllAux, List.mem_cons]
      rw [ih (start + 1) i r]
      constructor
      · rintro (heq | ⟨j, item, rfl, hj, hr⟩)
        · obtain ⟨h₁, h₂⟩ := Prod.mk.injEq .. ▸ heq
          exact ⟨0, item₀, by omega, by simp, h₂⟩
        · exact ⟨j + 1, item, by omega, by simpa using hj, hr⟩
      · rintro ⟨j, item, hij, hj, hr⟩
        cases j with
        | zero =>
          left
          have : item = item₀ := by simpa using hj.symm
          subst this
          have : i = start := by omega
          subst this
          rw [hr]
        | succ j' =>
          right
          exact ⟨j', item, by omega, by simpa using hj, hr⟩

/-- Every key produced from starting index `start` is at least `start`. -/
lemma verifyAllAux_keys_lower (client : Context7Client) :
    ∀ (items : List (Option VerificationItem)) (start k : Nat),
      k ∈ (verifyAllAux client start items).map Prod.fst → start ≤ k := by
  intro items
  induction items with
  | nil =>
    intro start k h
    simp [verifyAllAux] at h
  | cons hd tl ih =>
    intro start k
    cases hd with
    | none =>
      intro h
      have := ih (start + 1) k (by simpa [verifyAllAux] using h)
      omega
    | some item₀ =>
      simp only [verifyAllAux, List.map_cons, List.mem_cons]
      rintro (rfl | h)
      · omega
      · have := ih (start + 1) k h
        omega

/-- The produced indices are pairwise distinct. -/
lemma verifyAllAux_keys_nodup (client : Context7Client) :
    ∀ (items : List (Option VerificationItem)) (start : Nat),
      ((verifyAllAux client start items).map Prod.fst).Nodup := by
  intro items
  induction items with
  | nil =>
    intro start
    simp [verifyAllAux]
  | cons hd tl ih =>
    intro start
    cases hd with
    | none => simpa [verifyAllAux] using ih (start + 1)
    | some item₀ =>
      simp only [verifyAllAux, List.map_cons]
      refine List.Nodup.cons ?_ (ih (start + 1))
      intro hmem
      have := verifyAllAux_keys_lower client tl (start + 1) start hmem
      omega

/-- C10: the key set of the batch verification is exactly the set of
indices holding a non-null item, keys are pairwise distinct, every
non-null item's entry is the result of verifying that item alone, and
every entry arises that way — so null items are skipped and one item's
outcome never affects another's entry. -/
theorem c10_verify_all_independent :
    ∀ (client : Context7Client) (items : List (Option VerificationItem)),
      (∀ i : Nat,
        i ∈ (verifyAllRecommendations client items).map Prod.fst ↔
          ∃ item, items[i]? = some (some item)) ∧
      ((verifyAllRecommendations client items).map Prod.fst).Nodup ∧
      (∀ i item, items[i]? = some (some item) →
        (i, (verifyRecommendation client item.libraryName item.useCase).1) ∈
          verifyAllRecommendations client items) ∧
      (∀ p ∈ verifyAllRecommendations client items,
        ∃ item, items[p.1]? = some (some item) ∧
          p.2 = (verifyRecommendation client item.libraryName item.useCase).1) := by
  intro client items
  refine ⟨?_, verifyAllAux_keys_nodup client items 0, ?_, ?_⟩
  · intro i
    constructor
    · intro h
      obtain ⟨p, hp, hfst⟩ := List.mem_map.mp h
      obtain ⟨j, item, hij, hj, _⟩ :=
        (verifyAllAux_mem client items 0 p.1 p.2).mp (by simpa using hp)
      subst hfst
      have : p.1 = j := by omega
      exact ⟨item, this ▸ hj⟩
    · rintro ⟨item, hitem⟩
      refine List.mem_map.mpr
        ⟨(i, (verifyRecommendation client item.libraryName item.useCase).1),
          ?_, rfl⟩
      exact (verifyAllAux_mem client items 0 i _).mpr
        ⟨i, item, by omega, hitem, rfl⟩
  · intro i item hitem
    exact (verifyAllAux_mem client items 0 i _).mpr ⟨i, item, by omega, hitem, rfl⟩
  · intro p hp
    obtain ⟨j, item, hij, hj, hr⟩ :=
      (verifyAllAux_mem client items 0 p.1 p.2).mp (by simpa using hp)
    have : p.1 = j := by omega
    subst this
    exact ⟨item, hj, hr⟩

/-- C10 witness: with a two-item list holding one recommendation and one
null, index 0 is present with the item's own verification result and
index 1 is absent. -/
theorem c10_verify_all_independent_witness :
    (0, (verifyRecommendation successClient "zod" "validation").1) ∈
      verifyAllRecommendations successClient [some ⟨"zod", "validation"⟩, none] ∧
    ¬ 1 ∈ (verifyAllRecommendations successClient
        [some ⟨"zod", "validation"⟩, none]).map Prod.fst :=
  ⟨(c10_verify_all_independent successClient
      [some ⟨"zod", "validation"⟩, none]).2.2.1 0 ⟨"zod", "validation"⟩ rfl,
   fun h => by
    obtain ⟨item, hitem⟩ :=
      ((c10_verify_all_independent successClient
        [some ⟨"zod", "validation"⟩, none]).1 1).mp h
    simp at hitem⟩

end NextUnicorn
